import Mathlib

/-!
Shallow embedding of the MongoElector repository (mongoelector/locker.py and
mongoelector/elector.py) for checking the natural-language specification.

Modelling conventions:
* Time is an integer number of time units (the code uses datetime.utcnow();
  every call site that reads the clock receives its own explicit time
  parameter, since consecutive clock reads in the source are distinct calls).
* The locks collection is keyed by _id; all queries in the source filter on
  a single _id (the lock key), so the collection state relevant to one
  MongoLocker is an Option LockDoc: the document whose _id equals the key,
  if physically present (possibly expired, until the TTL reaper removes it).
* Mongo operations become pure functions on that state; fallible paths
  return Except or carry an explicit error component.
-/

namespace Elect

/-- Embeds the lock document written by MongoLocker.acquire (locker.py
lines 161-167): fields _id, locked, host, uuid, pid, ts_created, ts_expire. -/
structure LockDoc where
  idKey : String
  locked : Bool
  host : String
  uuid : String
  pid : Int
  ts_created : Int
  ts_expire : Int
deriving DecidableEq, Repr

/-- Embeds the per-instance identity of a MongoLocker (locker.py __init__):
the lock key, the instance uuid generated at construction, host, pid and the
configured ttl. -/
structure Locker where
  key : String
  uuid : String
  host : String
  pid : Int
  ttl : Int
deriving DecidableEq, Repr

/-- Embeds the payload built in MongoLocker.acquire (locker.py lines 159-167):
ts_expire is created plus ttl. -/
def insertPayload (lk : Locker) (created : Int) : LockDoc :=
  { idKey := lk.key
    locked := true
    host := lk.host
    uuid := lk.uuid
    pid := lk.pid
    ts_created := created
    ts_expire := created + lk.ttl }

/-- Embeds the owned query of MongoLocker.owned (locker.py lines 212-215):
the document matches the id, uuid, locked true and a live expiry. -/
def ownedMatch (lk : Locker) (d : LockDoc) (now : Int) : Bool :=
  d.idKey == lk.key && d.uuid == lk.uuid && d.locked && now < d.ts_expire

/-- Embeds MongoLocker.owned: true iff the stored document matches the
owned query at the given clock reading. -/
def owned (lk : Locker) (db : Option LockDoc) (now : Int) : Bool :=
  match db with
  | some d => ownedMatch lk d now
  | none => false

/-- Embeds MongoLocker.locked (locker.py lines 185-201): find on id and
live expiry, then return the locked field of the result, false otherwise. -/
def lockedQ (lk : Locker) (db : Option LockDoc) (now : Int) : Bool :=
  match db with
  | some d => if d.idKey == lk.key && now < d.ts_expire then d.locked else false
  | none => false

/-- Embeds the delete filter of MongoLocker.release (locker.py lines 234-238):
with force, the filter is the id alone; without force, the id and the uuid.
The filter does not mention locked or ts_expire. -/
def releaseMatch (lk : Locker) (force : Bool) (d : LockDoc) : Bool :=
  if force then d.idKey == lk.key else d.idKey == lk.key && d.uuid == lk.uuid

/-- Embeds MongoLocker.release (locker.py lines 226-239): delete_many with
the release filter. -/
def release (lk : Locker) (force : Bool) (db : Option LockDoc) : Option LockDoc :=
  match db with
  | some d => if releaseMatch lk force d then none else some d
  | none => none

/-- Embeds the update filter of MongoLocker.touch (locker.py lines 249-252):
id, uuid, locked true and a live expiry at the filter time. -/
def touchMatch (lk : Locker) (d : LockDoc) (nowFilter : Int) : Bool :=
  d.idKey == lk.key && d.uuid == lk.uuid && d.locked && nowFilter < d.ts_expire

/-- Embeds MongoLocker.touch (locker.py lines 241-259). The new expiry is
computed from one clock read (nowExpire) and the filter uses a second clock
read (nowFilter), as in the source. The returned option is the new expiry on
success and none for the falsy return of the source (the source returns
False, the spec calls it none). The first component is the collection state
after the find_one_and_update. -/
def touch (lk : Locker) (db : Option LockDoc) (nowExpire nowFilter : Int) :
    Option LockDoc × Option Int :=
  let newExpire := nowExpire + lk.ttl
  match db with
  | some d =>
    if touchMatch lk d nowFilter then
      (some { d with ts_expire := newExpire }, some newExpire)
    else
      (some d, none)
  | none => (none, none)

/-- Embeds the force branch of MongoLocker.acquire (locker.py line 169):
find_one_and_replace on the id filter, with the pymongo default upsert false.
If a document with this id is physically present (live or expired, any
owner), it is replaced by the payload and the post-image is returned;
if no document is present, nothing is written and none is returned.
The first component is the collection state after the call, the second is
the value the source binds to res. -/
def acquireForce (lk : Locker) (db : Option LockDoc) (created : Int) :
    Option LockDoc × Option LockDoc :=
  let payload := insertPayload lk created
  match db with
  | some _ => (some payload, some payload)
  | none => (none, none)

/-- Modelled from the spec: the spec (section 4.1, algorithm step 3) says the
force branch issues a find-one-and-replace upserting by _id. An upsert
inserts the payload when no document matches. This definition follows the
words of the spec, to be compared with acquireForce, which embeds the source
(the source passes no upsert flag, so pymongo defaults to upsert false). -/
def acquireForceUpsert (lk : Locker) (db : Option LockDoc) (created : Int) :
    Option LockDoc × Option LockDoc :=
  let payload := insertPayload lk created
  match db with
  | some _ => (some payload, some payload)
  | none => (some payload, some payload)

/-- Embeds the non-force branch of MongoLocker.acquire (locker.py line 171):
insert_one raises DuplicateKeyError iff a document with this id is physically
present, expired or not; otherwise the payload is inserted. True means the
insert succeeded. -/
def insertOne (lk : Locker) (db : Option LockDoc) (created : Int) :
    Option LockDoc × Bool :=
  match db with
  | some d => (some d, false)
  | none => (some (insertPayload lk created), true)

/-- Embeds the exceptions the retry predicate can raise: the explicit
ValueError of locker.py line 103, and the TypeError that the standard
library raises at line 112 when timedelta receives seconds None. -/
inductive RetryExn where
  | valueError
  | typeError
deriving DecidableEq, Repr

/-- Embeds the Python truthiness test applied to the timeout argument at
locker.py line 102: None and 0 are falsy, every other integer is truthy. -/
def timeoutTruthy : Option Int → Bool
  | none => false
  | some t => t != 0

/-- Embeds the static method MongoLocker._acquireretry (locker.py lines
99-115). The clock read of line 112 is the explicit now parameter. The
source subtracts start from now and compares with timedelta seconds timeout;
with timeout None that timedelta call raises TypeError, reached only when
blocking is true and count is nonzero, because line 110 returns first when
count is zero. -/
def _acquireretry (blocking : Bool) (start : Int) (timeout : Option Int)
    (count : Nat) (now : Int) : Except RetryExn Bool :=
  if blocking == false && timeoutTruthy timeout then
    .error .valueError
  else if blocking == false then
    if count > 0 then .ok false else .ok true
  else
    if count == 0 then .ok true
    else
      match timeout with
      | none => .error .typeError
      | some t => if now - start > t then .ok false else .ok true

/-- Embeds the value passed as the database argument of MongoLocker
construction: None, an actual database handle, or some other object that is
not a database but supports attribute access (the source only ever tests
the argument against None and then reads an attribute from it). -/
inductive DBArg where
  | noneDB
  | database
  | otherObj
deriving DecidableEq, Repr

/-- Embeds the value passed as the ttl argument of MongoLocker construction:
None, an integer, or a truthy non-integer such as a float or a string. -/
inductive TTLArg where
  | noneTTL
  | intTTL (n : Int)
  | nonIntTruthy
deriving DecidableEq, Repr

/-- Embeds the Python truthiness of the ttl argument at locker.py line 62. -/
def ttlTruthy : TTLArg → Bool
  | .noneTTL => false
  | .intTTL n => n != 0
  | .nonIntTruthy => true

/-- Embeds the isinstance int test at locker.py line 63. -/
def ttlIsInt : TTLArg → Bool
  | .intTTL _ => true
  | _ => false

/-- Embeds the only exception MongoLocker.__init__ raises itself: ValueError
(locker.py lines 61 and 67). No TypeError is raised anywhere in __init__. -/
inductive InitExn where
  | valueError
deriving DecidableEq, Repr

/-- Embeds the outcome of a successful MongoLocker construction: the key
that was bound and the _ttl attribute, which line 64 sets only when ttl is
truthy and an integer; otherwise the attribute is never assigned (none). -/
structure InitResult where
  key : String
  ttlSet : Option Int
deriving DecidableEq, Repr

/-- Embeds MongoLocker.__init__ (locker.py lines 31-67). Line 57 tests key
truthiness and db against None; a non-database object that is not None
passes this test. Line 62 tests ttl truthiness; line 63 tests isinstance
int; a truthy non-integer raises ValueError, a falsy ttl (None or 0) skips
the whole block, and any integer, negative included, is accepted. -/
def mongoLockerInit (key : String) (db : DBArg) (ttl : TTLArg) :
    Except InitExn InitResult :=
  if key != "" && db != DBArg.noneDB then
    if ttlTruthy ttl then
      match ttl with
      | .intTTL n => .ok ⟨key, some n⟩
      | _ => .error .valueError
    else
      .ok ⟨key, none⟩
  else
    .error .valueError

/-- Embeds the environment of the time sanity check: the local clock, the
database server clock (both in milliseconds) and the cached timestamp of the
last successful check. -/
structure TimeEnv where
  localTime : Int
  serverTime : Int
  sanetime : Option Int
deriving DecidableEq, Repr

/-- Embeds the error the spec calls TimeOffsetError. -/
inductive TimeExn where
  | timeOffsetError
deriving DecidableEq, Repr

/-- Embeds MongoLocker._verifytime (locker.py lines 117-132). The entire
body of the source function is commented out behind a TODO, so the function
ignores its environment, queries nothing, caches nothing, raises nothing and
returns None. -/
def _verifytime (_env : TimeEnv) : Except TimeExn Unit :=
  .ok ()

/-- Modelled from the spec: the time check the spec (section 4.1, algorithm
step 1) describes for acquire. If a successful check is cached within the
last ten minutes (600000 ms), pass; otherwise compare the local clock to the
server clock and fail with TimeOffsetError when the absolute offset exceeds
maxoffset (given in milliseconds, 500 for the default 0.5 s); on success
cache the check time. This follows the words of the spec, for comparison
with _verifytime, whose source body is commented out. -/
def verifytimeSpec (env : TimeEnv) (maxoffsetMs : Int) : Except TimeExn TimeEnv :=
  let cachedOk :=
    match env.sanetime with
    | some t => decide (env.localTime - 600000 < t)
    | none => false
  if cachedOk then
    .ok env
  else
    if (env.localTime - env.serverTime).natAbs > maxoffsetMs.natAbs then
      .error .timeOffsetError
    else
      .ok { env with sanetime := some env.localTime }

/-- Embeds the first step of MongoLocker.acquire (locker.py lines 152-153):
when timeparanoid is true, call _verifytime before anything else. -/
def acquireTimeGate (timeparanoid : Bool) (env : TimeEnv) : Except TimeExn Unit :=
  if timeparanoid then _verifytime env else .ok ()

/-- Embeds the outcome of the DuplicateKeyError handler inside
MongoLocker.acquire (locker.py lines 173-182). -/
inductive DupOutcome where
  | noneTypeError
  | lockExists (host : String) (pid : Int) (countdown : Int)
  | sleepRetry
deriving DecidableEq, Repr

/-- Embeds the DuplicateKeyError handler of MongoLocker.acquire (locker.py
lines 173-182). The handler re-reads the document by id and immediately
subscripts the result to compute countdown (line 175); when the re-read
returns None that subscript raises TypeError. With a document present, the
non-blocking path raises LockExists carrying the owner host, the owner pid
and the countdown (now minus ts_expire, as in the source), and the blocking
path sleeps and retries. -/
def handleDuplicate (existing : Option LockDoc) (blocking : Bool) (now : Int) :
    DupOutcome :=
  match existing with
  | none => .noneTypeError
  | some e =>
    let countdown := now - e.ts_expire
    if !blocking then .lockExists e.host e.pid countdown
    else .sleepRetry

/-- Embeds the configuration of a MongoElector (elector.py __init__): the
underlying locker, which of the three optional callbacks were provided, a
flag per callback saying whether invoking it raises (callbacks are opaque
user code), and the report_status toggle. -/
structure Elector where
  lk : Locker
  hasOnMaster : Bool
  onMasterThrows : Bool
  hasOnMasterLoss : Bool
  onMasterLossThrows : Bool
  hasOnLoop : Bool
  onLoopThrows : Bool
  reportStatus : Bool
deriving DecidableEq, Repr

/-- Embeds the mutable elector state touched by poll, release and the
thread loop: _wasmaster, _shutdown and _ts_poll. -/
structure ElectorState where
  wasmaster : Bool
  shutdown : Bool
  ts_poll : Option Int
deriving DecidableEq, Repr

/-- Observable events of one poll or release: callback invocations, the
status report upsert, and the warning the thread loop logs for a caught
exception. -/
inductive Event where
  | onMaster
  | onMasterLoss
  | onLoop
  | statusReport
  | loggedWarning
deriving DecidableEq, Repr

/-- Embeds the exceptions that can escape poll or release: an exception
raised by a user callback, and the TypeError raised when release calls a
callback attribute that is None. -/
inductive CbExn where
  | callbackError
  | noneCallTypeError
deriving DecidableEq, Repr

/-- Result of one poll, release or thread-loop iteration: the elector state,
the lock collection state, the events that happened in order, and the
exception that escaped, if any (events after the exception do not happen). -/
structure PollOut where
  st : ElectorState
  db : Option LockDoc
  events : List Event
  exn : Option CbExn
deriving DecidableEq, Repr

/-- Embeds one guarded callback invocation of elector.py, such as line
119-120: if the callback attribute is set, call it; the call emits its event
and raises iff the callback raises. Returns the emitted events and whether
the invocation raised. -/
def callCb (has throws : Bool) (ev : Event) : List Event × Bool :=
  if has then ([ev], throws) else ([], false)

/-- Embeds elector.py lines 122-131, the acquire block of poll: if no live
master exists and shutdown is not requested, attempt a non-blocking acquire.
LockExists from a physically present document is swallowed by the except
clause at line 125; on insert success line 128 re-checks owned and fires the
onmaster callback. The re-read inside the swallowed acquire is given the
same collection state as the insert attempt. The events component holds only
the events of this block. -/
def pollStep4 (el : Elector) (st : ElectorState) (db : Option LockDoc)
    (tExists tAcquire tOwned2 : Int) : PollOut :=
  if !lockedQ el.lk db tExists && !st.shutdown then
    match db with
    | none =>
      let db2 := some (insertPayload el.lk tAcquire)
      if owned el.lk db2 tOwned2 then
        let fired := callCb el.hasOnMaster el.onMasterThrows Event.onMaster
        ⟨{ st with wasmaster := true }, db2, fired.1,
          if fired.2 then some CbExn.callbackError else none⟩
      else ⟨st, db2, [], none⟩
    | some _ => ⟨st, db, [], none⟩
  else ⟨st, db, [], none⟩

/-- Embeds elector.py lines 132-135, the end of poll: report status if
configured, then fire the onloop callback. Runs only when the acquire block
did not raise. -/
def pollTail (el : Elector) (st : ElectorState) (db : Option LockDoc)
    (tExists tAcquire tOwned2 : Int) (evs : List Event) : PollOut :=
  let s4 := pollStep4 el st db tExists tAcquire tOwned2
  match s4.exn with
  | some e => ⟨s4.st, s4.db, evs ++ s4.events, some e⟩
  | none =>
    let evs3 := evs ++ s4.events ++ (if el.reportStatus then [Event.statusReport] else [])
    let fired := callCb el.hasOnLoop el.onLoopThrows Event.onLoop
    ⟨s4.st, s4.db, evs3 ++ fired.1, if fired.2 then some CbExn.callbackError else none⟩

/-- Embeds MongoElector.poll (elector.py lines 103-135), serialized under
the poll mutex. Each clock read of the source is a distinct parameter, in
source order: the _ts_poll stamp, the owned check, the two reads inside
touch, the master_exists check, the acquire payload, and the owned re-check
after acquire. The touch return value at line 115 is discarded, exactly as
in the source. A callback that raises aborts the rest of the cycle and the
exception escapes poll. -/
def poll (el : Elector) (st : ElectorState) (db : Option LockDoc)
    (tPoll tOwned tTouchExpire tTouchFilter tExists tAcquire tOwned2 : Int) :
    PollOut :=
  let st0 := { st with ts_poll := some tPoll }
  if owned el.lk db tOwned then
    let st1 := { st0 with wasmaster := true }
    let db1 := (touch el.lk db tTouchExpire tTouchFilter).1
    pollTail el st1 db1 tExists tAcquire tOwned2 []
  else
    if st0.wasmaster then
      let st1 := { st0 with wasmaster := false }
      let fired := callCb el.hasOnMasterLoss el.onMasterLossThrows Event.onMasterLoss
      if fired.2 then ⟨st1, db, fired.1, some CbExn.callbackError⟩
      else pollTail el st1 db tExists tAcquire tOwned2 fired.1
    else pollTail el st0 db tExists tAcquire tOwned2 []

/-- Embeds MongoElector.release (elector.py lines 158-165), serialized under
the poll mutex: release the underlying lock without force, then, if
_wasmaster is true AND the callback_onmaster attribute is set (the source
guards on callback_onmaster, not callback_onmasterloss), call
callback_onmasterloss; when that attribute is None the call raises
TypeError. The source never assigns _wasmaster here. -/
def releaseElector (el : Elector) (st : ElectorState) (db : Option LockDoc) :
    PollOut :=
  let db1 := release el.lk false db
  if st.wasmaster && el.hasOnMaster then
    if el.hasOnMasterLoss then
      ⟨st, db1, [Event.onMasterLoss],
        if el.onMasterLossThrows then some CbExn.callbackError else none⟩
    else
      ⟨st, db1, [], some CbExn.noneCallTypeError⟩
  else
    ⟨st, db1, [], none⟩

/-- Embeds one iteration of ElectorThread.run (elector.py lines 185-194):
the body calls poll inside try; any exception is caught and logged as a
warning; nothing propagates out of the loop body. The while condition is
re-checked on the shutdown flag of the resulting state. -/
def runStep (el : Elector) (st : ElectorState) (db : Option LockDoc)
    (tPoll tOwned tTouchExpire tTouchFilter tExists tAcquire tOwned2 : Int) :
    PollOut :=
  let r := poll el st db tPoll tOwned tTouchExpire tTouchFilter tExists tAcquire tOwned2
  match r.exn with
  | some _ => ⟨r.st, r.db, r.events ++ [Event.loggedWarning], none⟩
  | none => r

/-! Concrete instances used by individual claim theorems. -/

/-- Locker instance for the C4 scenario: key k, uuid u, ttl 10. -/
def lkC4 : Locker := ⟨"k", "u", "h", 1, 10⟩

/-- Elector for the C4 scenario: onmasterloss provided (never raising),
status reporting on, no other callbacks. -/
def elC4 : Elector := ⟨lkC4, false, false, true, false, false, false, true⟩

/-- Elector state for the C4 scenario: follower, not shutting down. -/
def stC4 : ElectorState := ⟨false, false, none⟩

/-- Lock document for the C4 scenario: owned by lkC4, expiring at time 5. -/
def dC4 : LockDoc := ⟨"k", true, "h", "u", 1, 0, 5⟩

/-- Locker instance for the C5 scenario. -/
def lkC5 : Locker := ⟨"k", "u", "h", 1, 10⟩

/-- Elector for the C5 scenario: onmasterloss provided, onmaster absent. -/
def elC5 : Elector := ⟨lkC5, false, false, true, false, false, false, true⟩

/-- Elector for the second C5 scenario: onmaster provided, onmasterloss
absent. -/
def elC5b : Elector := ⟨lkC5, true, false, false, false, false, false, true⟩

/-- Elector state for the C5 scenario: currently leader. -/
def stC5 : ElectorState := ⟨true, false, none⟩

/-- Lock document for the C5 scenario: owned by lkC5, live until time 10. -/
def dC5 : LockDoc := ⟨"k", true, "h", "u", 1, 0, 10⟩

/-- Locker instance for the C9 scenario. -/
def lkC9 : Locker := ⟨"k", "u", "h", 1, 10⟩

/-- Elector for the C9 scenario: onmasterloss provided and raising, onloop
provided, status reporting on. -/
def elC9 : Elector := ⟨lkC9, false, false, true, true, true, false, true⟩

/-- Elector state for the C9 scenario: was leader, not shutting down. -/
def stC9 : ElectorState := ⟨true, false, none⟩

/-! Helper lemmas about the acquire block and the tail of poll. -/

theorem pollStep4_st_cases (el : Elector) (st : ElectorState) (db : Option LockDoc)
    (a b c : Int) :
    (pollStep4 el st db a b c).st = st ∨
      (pollStep4 el st db a b c).st = { st with wasmaster := true } := by
  cases db <;> simp only [pollStep4, callCb] <;> (repeat' split) <;> simp

theorem pollStep4_events_cases (el : Elector) (st : ElectorState) (db : Option LockDoc)
    (a b c : Int) :
    (pollStep4 el st db a b c).events = [] ∨
      (pollStep4 el st db a b c).events = [Event.onMaster] := by
  cases db <;> simp only [pollStep4, callCb] <;> (repeat' split) <;> simp

theorem pollTail_st_eq (el : Elector) (st : ElectorState) (db : Option LockDoc)
    (a b c : Int) (evs : List Event) :
    (pollTail el st db a b c evs).st = (pollStep4 el st db a b c).st := by
  simp only [pollTail]
  cases h : (pollStep4 el st db a b c).exn <;> simp [h]

theorem pollTail_wasmaster (el : Elector) (st : ElectorState) (db : Option LockDoc)
    (a b c : Int) (evs : List Event) (h : st.wasmaster = true) :
    (pollTail el st db a b c evs).st.wasmaster = true := by
  rw [pollTail_st_eq]
  rcases pollStep4_st_cases el st db a b c with h4 | h4 <;> simp [h4, h]

theorem pollTail_mem_evs (el : Elector) (st : ElectorState) (db : Option LockDoc)
    (a b c : Int) (evs : List Event) (x : Event) (h : x ∈ evs) :
    x ∈ (pollTail el st db a b c evs).events := by
  simp only [pollTail]
  cases hx : (pollStep4 el st db a b c).exn <;> simp [hx, h]

theorem pollTail_no_masterloss (el : Elector) (st : ElectorState) (db : Option LockDoc)
    (a b c : Int) :
    Event.onMasterLoss ∉ (pollTail el st db a b c []).events := by
  rcases pollStep4_events_cases el st db a b c with h4 | h4 <;>
    cases hx : (pollStep4 el st db a b c).exn <;>
    simp only [pollTail, callCb, hx, h4] <;>
    (repeat' split) <;>
    simp

/-! Claim theorems. -/

/-- C1, counterexample. At local time 0 with server time 100000 ms the
absolute offset is 100 seconds, far above the default maxoffset of 500 ms
and with no cached check, yet the time gate of acquire succeeds instead of
failing with TimeOffsetError, because the body of _verifytime is commented
out; the check the spec describes (verifytimeSpec) would fail here. -/
theorem verifytime_disabled_counterexample :
    acquireTimeGate true ⟨0, 100000, none⟩ = Except.ok () ∧
      verifytimeSpec ⟨0, 100000, none⟩ 500 = Except.error TimeExn.timeOffsetError := by
  exact ⟨rfl, rfl⟩

/-- C1, amended. When timeparanoid is set, acquire calls _verifytime, but
the body of _verifytime is entirely commented out: for every environment
(any local time, server time and cache state) both _verifytime and the
time gate of acquire return successfully without querying, comparing or
caching anything, and no TimeOffsetError is ever raised. -/
theorem acquire_time_gate_noop (timeparanoid : Bool) (env : TimeEnv) :
    _verifytime env = Except.ok () ∧ acquireTimeGate timeparanoid env = Except.ok () := by
  refine ⟨rfl, ?_⟩
  cases timeparanoid <;> rfl

/-- C2, counterexample. Three concrete inputs refuting the claimed retry
predicate: with blocking true, a null timeout and count 1 the code raises a
TypeError (timedelta with seconds None) instead of returning true; with
blocking false and the non-null timeout 0 the code returns a value instead
of raising the usage error; with blocking true, timeout 3 and count 0 the
code returns true even though 100 time units have elapsed since start. -/
theorem acquireretry_counterexample :
    _acquireretry true 0 none 1 5 = Except.error RetryExn.typeError ∧
      _acquireretry false 0 (some 0) 1 0 = Except.ok false ∧
      _acquireretry true 0 (some 3) 0 100 = Except.ok true := by
  exact ⟨rfl, rfl, rfl⟩

/-- C2, amended. The retry predicate raises a value error iff blocking is
false and the timeout is non-null and nonzero; with blocking false and a
null or zero timeout it returns false for positive count and true for count
zero; with blocking true it returns true whenever count is zero, for every
timeout and elapsed time; with blocking true, positive count and a null
timeout it raises a type error; with blocking true, positive count and a
non-null timeout it returns true iff the elapsed time now minus start does
not exceed the timeout. -/
theorem acquireretry_amended (start now t : Int) (count : Nat) (timeout : Option Int) :
    (t ≠ 0 → _acquireretry false start (some t) count now = Except.error RetryExn.valueError) ∧
      _acquireretry false start none count now =
        (if count > 0 then Except.ok false else Except.ok true) ∧
      _acquireretry false start (some 0) count now =
        (if count > 0 then Except.ok false else Except.ok true) ∧
      _acquireretry true start timeout 0 now = Except.ok true ∧
      (count ≠ 0 → _acquireretry true start none count now = Except.error RetryExn.typeError) ∧
      (count ≠ 0 → _acquireretry true start (some t) count now =
        (if now - start > t then Except.ok false else Except.ok true)) := by
  refine ⟨?_, ?_, ?_, ?_, ?_, ?_⟩ <;>
    simp [_acquireretry, timeoutTruthy] <;>
    intro h <;>
    simp [h]

/-- C2, witness for the amended theorem at concrete inputs: blocking false
with timeout 7 raises the value error, and blocking true with a null timeout
and count 2 raises the type error. -/
theorem acquireretry_amended_witness :
    _acquireretry false 0 (some 7) 2 9 = Except.error RetryExn.valueError ∧
      _acquireretry true 0 none 2 9 = Except.error RetryExn.typeError := by
  have h := acquireretry_amended 0 9 7 2 (some 7)
  exact ⟨h.1 (by decide), h.2.2.2.2.1 (by decide)⟩

/-- C3, code bug, evaluation at the failing inputs. MongoLocker.__init__
accepts ttl equal to -1 (it binds the ttl attribute to -1 and raises
nothing), accepts ttl equal to 0 (the truthiness test at line 62 skips the
whole ttl block, so no error is raised and the ttl attribute is never
assigned), and accepts a non-database handle that is not None (line 57 only
compares the handle against None, and no isinstance check or TypeError
exists in the constructor); the claim and the repository tests require a
ValueError for the first two and a TypeError for the third. -/
theorem init_accepts_invalid_args :
    mongoLockerInit "testinit" DBArg.database (TTLArg.intTTL (-1)) =
        Except.ok ⟨"testinit", some (-1)⟩ ∧
      mongoLockerInit "testinit" DBArg.database (TTLArg.intTTL 0) =
        Except.ok ⟨"testinit", none⟩ ∧
      mongoLockerInit "k" DBArg.otherObj (TTLArg.intTTL 600) =
        Except.ok ⟨"k", some 600⟩ := by
  exact ⟨rfl, rfl, rfl⟩

/-- C10, confirmed. The DuplicateKeyError handler of acquire re-reads the
document and subscripts the result without a None check: whenever the
re-read still finds a document, the non-blocking path raises LockExists
carrying the owner host and pid of that document (and the countdown value
now minus ts expire, as computed by the source); whenever the document was
deleted or reaped between the failed insert and the re-read, the handler
reaches the subscript of None, a TypeError, for blocking and non-blocking
alike. -/
theorem duplicate_handler_split (e : LockDoc) (now : Int) (blocking : Bool) :
    handleDuplicate (some e) false now =
        DupOutcome.lockExists e.host e.pid (now - e.ts_expire) ∧
      handleDuplicate none blocking now = DupOutcome.noneTypeError := by
  exact ⟨rfl, rfl⟩

/-- C4, counterexample. A poll cycle that owns the lock at the initial
check (time 4, document expires at 5) and whose touch filter runs after the
lease elapsed (time 6): touch returns none, yet the same poll cycle leaves
was leader set and fires no onmasterloss, contradicting the claim that the
LEADER to FOLLOWER transition happens in that cycle. -/
theorem poll_touch_loss_counterexample :
    (touch lkC4 (some dC4) 4 6).2 = none ∧
      (poll elC4 stC4 (some dC4) 4 4 4 6 7 7 7).st.wasmaster = true ∧
      Event.onMasterLoss ∉ (poll elC4 stC4 (some dC4) 4 4 4 6 7 7 7).events := by
  refine ⟨by decide, by decide, by decide⟩

/-- C4, amended. Poll discards the return value of touch: in every poll
cycle whose initial owned check succeeds, was leader is set and stays set
and no onmasterloss fires in that cycle, whatever touch returned; the
LEADER to FOLLOWER transition (clearing was leader and firing onmasterloss)
happens only in a poll cycle whose initial owned check fails while was
leader is still set. -/
theorem poll_leader_loss_deferred (el : Elector) (st : ElectorState)
    (db : Option LockDoc) (t1 t2 t3 t4 t5 t6 t7 : Int) :
    (owned el.lk db t2 = true →
        (poll el st db t1 t2 t3 t4 t5 t6 t7).st.wasmaster = true ∧
          Event.onMasterLoss ∉ (poll el st db t1 t2 t3 t4 t5 t6 t7).events) ∧
      (owned el.lk db t2 = false → st.wasmaster = true → el.hasOnMasterLoss = true →
        Event.onMasterLoss ∈ (poll el st db t1 t2 t3 t4 t5 t6 t7).events) := by
  constructor
  · intro h
    simp only [poll, h, if_true]
    exact ⟨pollTail_wasmaster _ _ _ _ _ _ _ rfl, pollTail_no_masterloss _ _ _ _ _ _⟩
  · intro h hw hcb
    simp only [poll, h, hw, hcb, callCb, if_true, Bool.false_eq_true, if_false]
    cases hth : el.onMasterLossThrows <;> simp only [hth, if_true, Bool.false_eq_true, if_false]
    · exact pollTail_mem_evs _ _ _ _ _ _ _ _ (by simp)
    · simp

/-- C4, witness for the amended theorem: a follower-side cycle with was
leader set and an owned check that fails fires onmasterloss. -/
theorem poll_leader_loss_deferred_witness :
    Event.onMasterLoss ∈ (poll elC4 ⟨true, false, none⟩ none 0 0 0 0 0 0 0).events :=
  (poll_leader_loss_deferred elC4 ⟨true, false, none⟩ none 0 0 0 0 0 0 0).2
    (by decide) rfl (by decide)

/-- C5, code bug, evaluation at the failing input. With was leader true, an
onmasterloss callback provided and no onmaster callback, release deletes
the lock document but fires no onmasterloss and leaves was leader true,
because the source guards the callback invocation on the wrong attribute
(callback_onmaster) and never assigns was leader; symmetrically, with
onmaster provided and onmasterloss absent, release attempts to call None
and raises TypeError. The claim and the release docstring require firing
onmasterloss and transitioning to follower. -/
theorem release_elector_typo_eval :
    releaseElector elC5 stC5 (some dC5) = ⟨⟨true, false, none⟩, none, [], none⟩ ∧
      releaseElector elC5b stC5 (some dC5) =
        ⟨⟨true, false, none⟩, none, [], some CbExn.noneCallTypeError⟩ := by
  refine ⟨by decide, by decide⟩

/-- C6, counterexample. With no document present, the force acquire of the
source leaves the collection empty and the forcing manager does not own the
lock, while the upserting find-one-and-replace the claim describes would
have inserted the payload: the operation issued by the source is not an
upsert. -/
theorem force_acquire_no_upsert_counterexample :
    (acquireForce ⟨"k", "u", "h", 1, 10⟩ none 0).1 = none ∧
      (acquireForce ⟨"k", "u", "h", 1, 10⟩ none 0).2 = none ∧
      (acquireForceUpsert ⟨"k", "u", "h", 1, 10⟩ none 0).1 =
        some (insertPayload ⟨"k", "u", "h", 1, 10⟩ 0) ∧
      owned ⟨"k", "u", "h", 1, 10⟩ (acquireForce ⟨"k", "u", "h", 1, 10⟩ none 0).1 5 = false := by
  refine ⟨rfl, rfl, rfl, rfl⟩

/-- C6, amended. Force acquire issues a find-one-and-replace by id without
upsert: whenever a document is physically present (live or expired, any
owner), it is atomically replaced by the payload of the forcing manager, so
a force acquire against a live holder succeeds and transfers ownership: the
forcing manager then owns the lock (while its lease is live), the previous
holder no longer owns it, and a touch by the previous holder returns none;
only when no document is present at all does the call write nothing. -/
theorem force_acquire_transfer (a b : Locker) (d : LockDoc)
    (created now nowe nowf : Int) (hu : a.uuid ≠ b.uuid)
    (hl : now < created + b.ttl) :
    (acquireForce b (some d) created).1 = some (insertPayload b created) ∧
      (acquireForce b (some d) created).2 = some (insertPayload b created) ∧
      owned b (acquireForce b (some d) created).1 now = true ∧
      owned a (acquireForce b (some d) created).1 now = false ∧
      (touch a (acquireForce b (some d) created).1 nowe nowf).2 = none := by
  have h2 : (b.uuid == a.uuid) = false :=
    beq_eq_false_iff_ne.mpr (fun hbe => hu hbe.symm)
  refine ⟨rfl, rfl, ?_, ?_, ?_⟩ <;>
    simp [acquireForce, owned, ownedMatch, insertPayload, touch, touchMatch, h2, hl]

/-- C6, witness: a locker with uuid ub force-acquires at time 20 over a
live document owned by uuid ua; at time 25 the forcing locker owns the lock
and the previous holder does not. -/
theorem force_acquire_transfer_witness :
    owned ⟨"k", "ub", "h2", 2, 10⟩
        (acquireForce ⟨"k", "ub", "h2", 2, 10⟩ (some ⟨"k", true, "h", "ua", 1, 0, 10⟩) 20).1
        25 = true ∧
      owned ⟨"k", "ua", "h", 1, 10⟩
        (acquireForce ⟨"k", "ub", "h2", 2, 10⟩ (some ⟨"k", true, "h", "ua", 1, 0, 10⟩) 20).1
        25 = false := by
  have h := force_acquire_transfer ⟨"k", "ua", "h", 1, 10⟩ ⟨"k", "ub", "h2", 2, 10⟩
    ⟨"k", true, "h", "ua", 1, 0, 10⟩ 20 25 0 0 (by decide) (by decide)
  exact ⟨h.2.2.1, h.2.2.2.1⟩

/-- C7, counterexample. A document with matching id and uuid but locked
false and an elapsed expiry: the delete filter of release without force
matches it (and release deletes it), while the full owner-scoped predicate
the claim describes rejects it, so release does not filter its mutation on
the full predicate. -/
theorem release_filter_counterexample :
    releaseMatch ⟨"k", "u", "h", 1, 10⟩ false ⟨"k", false, "h2", "u", 2, 0, 0⟩ = true ∧
      touchMatch ⟨"k", "u", "h", 1, 10⟩ ⟨"k", false, "h2", "u", 2, 0, 0⟩ 5 = false ∧
      release ⟨"k", "u", "h", 1, 10⟩ false (some ⟨"k", false, "h2", "u", 2, 0, 0⟩) = none := by
  refine ⟨rfl, rfl, rfl⟩

/-- C7, amended. Touch filters on the full owner-scoped predicate of id,
uuid, locked true and live expiry, but release without force filters only
on id and uuid; the uuid condition alone already gives the safety
consequence the claim is after: a stale ex-owner whose uuid differs from
the uuid in the current document can mutate nothing, neither by release
(the document is left in place) nor by touch (the document is unchanged and
none is returned). -/
theorem owner_scoped_mutation_amended (lk : Locker) (d : LockDoc)
    (nowe nowf : Int) (h : d.uuid ≠ lk.uuid) :
    release lk false (some d) = some d ∧
      (touch lk (some d) nowe nowf).1 = some d ∧
      (touch lk (some d) nowe nowf).2 = none := by
  have h2 : (d.uuid == lk.uuid) = false := beq_eq_false_iff_ne.mpr h
  refine ⟨?_, ?_, ?_⟩ <;> simp [release, releaseMatch, touch, touchMatch, h2]

/-- C7, witness: a stale locker with uuid ustale can neither delete nor
renew the record of the new owner with uuid unew. -/
theorem owner_scoped_mutation_amended_witness :
    release ⟨"k", "ustale", "h", 1, 10⟩ false (some ⟨"k", true, "h2", "unew", 2, 0, 99⟩) =
        some ⟨"k", true, "h2", "unew", 2, 0, 99⟩ ∧
      (touch ⟨"k", "ustale", "h", 1, 10⟩ (some ⟨"k", true, "h2", "unew", 2, 0, 99⟩) 3 4).2 =
        none := by
  have h := owner_scoped_mutation_amended ⟨"k", "ustale", "h", 1, 10⟩
    ⟨"k", true, "h2", "unew", 2, 0, 99⟩ 3 4 (by decide)
  exact ⟨h.1, h.2.2⟩

/-- C8, counterexample. A lock acquired at time 0 with ttl 10 has expiry 10;
a touch whose two clock reads also happen at time 0 succeeds (the filter
sees 0 below 10) and returns the new expiry 10, equal to and not strictly
greater than the previous expiry, refuting the claimed strict increase. -/
theorem touch_strict_counterexample :
    (touch ⟨"k", "u", "h", 1, 10⟩ (some (insertPayload ⟨"k", "u", "h", 1, 10⟩ 0)) 0 0).2 =
        some 10 ∧
      (insertPayload ⟨"k", "u", "h", 1, 10⟩ 0).ts_expire = 10 := by
  refine ⟨by decide, by decide⟩

/-- C8, amended. Touch never decreases the expiry: when the document was
last written by the same locker at time tw (so its expiry is tw plus ttl)
and the touch computes its new expiry at a time tExp at or after tw, any
returned new expiry is at least the previous one, and strictly greater
exactly when tExp is strictly after tw. -/
theorem touch_monotonic_amended (lk : Locker) (d : LockDoc)
    (tw tExp tFlt newE : Int) (hd : d.ts_expire = tw + lk.ttl) (hle : tw ≤ tExp)
    (ht : (touch lk (some d) tExp tFlt).2 = some newE) :
    d.ts_expire ≤ newE ∧ (tw < tExp → d.ts_expire < newE) := by
  cases hm : touchMatch lk d tFlt <;> simp [touch, hm] at ht
  exact ⟨by omega, fun hlt => by omega⟩

/-- C8, witness: acquisition at time 0 with ttl 10, touch at time 3
returning expiry 13, which exceeds the previous expiry 10. -/
theorem touch_monotonic_amended_witness :
    (⟨"k", true, "h", "u", 1, 0, 10⟩ : LockDoc).ts_expire ≤ 13 ∧
      ((0 : Int) < 3 → (⟨"k", true, "h", "u", 1, 0, 10⟩ : LockDoc).ts_expire < 13) :=
  touch_monotonic_amended ⟨"k", "u", "h", 1, 10⟩ ⟨"k", true, "h", "u", 1, 0, 10⟩ 0 3 4 13
    (by decide) (by decide) (by decide)

/-- C9, counterexample. An elector whose onmasterloss callback raises, with
an onloop callback and status reporting configured: the exception escapes
poll and the remainder of that cycle is aborted, with neither the status
report nor the onloop callback happening, contradicting the claim that a
callback fault does not abort the remainder of the poll cycle. -/
theorem callback_abort_counterexample :
    (poll elC9 stC9 none 0 0 0 0 0 0 0).exn = some CbExn.callbackError ∧
      Event.onLoop ∉ (poll elC9 stC9 none 0 0 0 0 0 0 0).events ∧
      Event.statusReport ∉ (poll elC9 stC9 none 0 0 0 0 0 0 0).events := by
  refine ⟨by decide, by decide, by decide⟩

/-- C9, amended. Callback faults are caught one level up, around the whole
poll call in the elector thread loop, not around each callback: a callback
exception aborts the remainder of its poll cycle and escapes poll, but the
thread loop body never lets it propagate: when poll raises, the loop
iteration returns normally after logging a warning, and when poll does not
raise, the iteration is exactly poll. -/
theorem callback_fault_contained (el : Elector) (st : ElectorState)
    (db : Option LockDoc) (t1 t2 t3 t4 t5 t6 t7 : Int) :
    (runStep el st db t1 t2 t3 t4 t5 t6 t7).exn = none ∧
      ((poll el st db t1 t2 t3 t4 t5 t6 t7).exn = none →
        runStep el st db t1 t2 t3 t4 t5 t6 t7 = poll el st db t1 t2 t3 t4 t5 t6 t7) ∧
      (∀ e, (poll el st db t1 t2 t3 t4 t5 t6 t7).exn = some e →
        (runStep el st db t1 t2 t3 t4 t5 t6 t7).events =
          (poll el st db t1 t2 t3 t4 t5 t6 t7).events ++ [Event.loggedWarning]) := by
  refine ⟨?_, ?_, ?_⟩ <;>
    (simp only [runStep]
     cases h : (poll el st db t1 t2 t3 t4 t5 t6 t7).exn <;> simp [h])

/-- C9, witness: the raising-callback scenario of the counterexample, pushed
through one thread loop iteration: the iteration ends without exception and
its events are the poll events followed by the logged warning. -/
theorem callback_fault_contained_witness :
    (runStep elC9 stC9 none 0 0 0 0 0 0 0).exn = none ∧
      (runStep elC9 stC9 none 0 0 0 0 0 0 0).events =
        (poll elC9 stC9 none 0 0 0 0 0 0 0).events ++ [Event.loggedWarning] := by
  have h := callback_fault_contained elC9 stC9 none 0 0 0 0 0 0 0
  exact ⟨h.1, h.2.2 CbExn.callbackError (by decide)⟩

end Elect
